import Mathlib

/-!
Shallow embedding of `src/services/onchain.js` (the on-chain fetch layer:
transport, the two provider adapters, normalization, and the orchestrator),
together with theorems settling the specification claims about it.

JavaScript semantics relevant here is modelled explicitly:
truthiness, `a || b`, `Number(...)` coercion (with `none` playing NaN),
and the ambient clock `Date.now()` / host `Date.parse`, which are passed
in explicitly (`now`, `dateParse`) since they are host state the code reads.
-/

namespace Onchain

/-- A JavaScript primitive value as the adapters see it: `vnull` stands for
a missing field / `undefined` / `null`, otherwise a string or a number. -/
inductive JVal where
  | vnull
  | vstr (s : String)
  | vnum (n : Int)
deriving DecidableEq, Repr

/-- JS truthiness: `undefined`/`null`, `""` and `0` are falsy. -/
def jsTruthy : JVal → Bool
  | .vnull => false
  | .vstr s => s != ""
  | .vnum n => n != 0

/-- JS `a || b`. -/
def jsOr (a b : JVal) : JVal := if jsTruthy a then a else b

/-- JS string coercion as used in template literals and `RegExp.test`. -/
def jvToStr : JVal → String
  | .vnull => "undefined"
  | .vstr s => s
  | .vnum n => toString n

/-- Decimal value of a non-empty all-digit character list, `none` otherwise. -/
def parseDecNat (cs : List Char) : Option Nat :=
  if cs ≠ [] ∧ cs.all (fun c => c.isDigit) then
    some (cs.foldl (fun n c => n * 10 + (c.toNat - 48)) 0)
  else
    none

/-- Integer parse of a decimal string with an optional leading minus sign. -/
def jsStrToInt? (s : String) : Option Int :=
  match s.toList with
  | '-' :: rest => (parseDecNat rest).map (fun v => -(v : Int))
  | cs => (parseDecNat cs).map (fun v => (v : Int))

/-- JS `Number(...)` coercion restricted to the integer strings the providers
send; `none` plays NaN (`Number("")` is `0`, `Number(undefined)` is NaN). -/
def jsNumber : JVal → Option Int
  | .vnull => none
  | .vnum n => some n
  | .vstr s => if s = "" then some 0 else jsStrToInt? s

/-- The duck-typed raw transaction object `normalizeTokenTx` receives: every
field name the function looks up, `vnull` when the provider omits it.
(`from`/`to` are Lean keywords, hence `fromA`/`toA`.) -/
structure RawTx where
  hash : JVal := .vnull
  transactionHash : JVal := .vnull
  tx_hash : JVal := .vnull
  timeStamp : JVal := .vnull
  block_signed_at : JVal := .vnull
  fromA : JVal := .vnull
  from_address : JVal := .vnull
  toA : JVal := .vnull
  to_address : JVal := .vnull
  tokenSymbol : JVal := .vnull
  token_symbol : JVal := .vnull
  tokenName : JVal := .vnull
  token_name : JVal := .vnull
  contractAddress : JVal := .vnull
  contract_address : JVal := .vnull
  value : JVal := .vnull
  tokenDecimal : JVal := .vnull
  token_decimals : JVal := .vnull
deriving DecidableEq, Repr

/-- The normalized record the UI consumes. `time` is epoch milliseconds with
`none` playing the Invalid Date (NaN) case; `decimals` is `none` when
`Number(...)` produced NaN. -/
structure NormalizedTx where
  source : String
  hash : JVal
  time : Option Int
  fromA : JVal
  toA : JVal
  tokenSymbol : JVal
  tokenName : JVal
  contractAddress : JVal
  value : JVal
  decimals : Option Int
deriving DecidableEq, Repr

/-- `normalizeTokenTx(tx, source)`. `now` is the value `Date.now()` would
return at this call, `dateParse` is the host `Date.parse` (in milliseconds,
`none` for NaN). -/
def normalizeTokenTx (now : Int) (dateParse : String → Option Int)
    (tx : RawTx) (source : String) : NormalizedTx :=
  { source := source
    hash := jsOr (jsOr tx.hash tx.transactionHash) tx.tx_hash
    time :=
      if jsTruthy tx.timeStamp then
        (jsNumber tx.timeStamp).map (fun n => n * 1000)
      else if jsTruthy tx.block_signed_at then
        dateParse (jvToStr tx.block_signed_at)
      else
        some now
    fromA := jsOr tx.fromA tx.from_address
    toA := jsOr tx.toA tx.to_address
    tokenSymbol := jsOr tx.tokenSymbol tx.token_symbol
    tokenName := jsOr tx.tokenName tx.token_name
    contractAddress := jsOr tx.contractAddress tx.contract_address
    value := tx.value
    decimals := jsNumber (jsOr (jsOr tx.tokenDecimal tx.token_decimals) (.vnum 18)) }

/-- The characters of a string, ASCII-lowercased — how the regex flag `i`
compares text. -/
def lowerChars (s : String) : List Char := s.toList.map Char.toLower

/-- Case-insensitive substring test, modelling `/pat/i.test(msg)` for a
plain-text pattern. -/
def strContainsSub (hay needle : String) : Bool :=
  (lowerChars hay).tails.any (fun t => (lowerChars needle).isPrefixOf t)

/-- The test `/No transactions/i.test(msg)`. -/
def noTransactionsTest (msg : String) : Bool :=
  strContainsSub msg "No transactions"

/-- An error thrown by the JS code: `Error(message)`, or the `TypeError` the
runtime raises when `.map` is called on a non-array. -/
inductive JsError where
  | err (message : String)
  | typeError (message : String)
deriving DecidableEq, Repr

/-- The `result` field of an Etherscan response body: an array of raw
transactions, a string, absent, or some other JSON value carried together
with its `JSON.stringify` rendering. -/
inductive EtherscanResult where
  | rnull
  | rstr (s : String)
  | rarr (txs : List RawTx)
  | rother (stringified : String)
deriving DecidableEq, Repr

/-- An Etherscan response body: the three fields the adapter reads. -/
structure EtherscanBody where
  status : JVal := .vnull
  message : JVal := .vnull
  result : EtherscanResult := .rnull
deriving DecidableEq, Repr

/-- `json?.message || ''` as a JS value. -/
def msgValOf (body : EtherscanBody) : JVal := jsOr body.message (.vstr "")

/-- The string the regex and the template literal see for the message. -/
def msgOf (body : EtherscanBody) : String := jvToStr (msgValOf body)

/-- `${msg || 'ERROR'}` in the thrown message. -/
def errMsgOf (body : EtherscanBody) : String :=
  if jsTruthy (msgValOf body) then msgOf body else "ERROR"

/-- Response-body parsing of `fetchEtherscanTokenTransfers` (everything after
the `fetchJSON` call succeeded). -/
def etherscanParse (now : Int) (dateParse : String → Option Int)
    (body : EtherscanBody) : Except JsError (List NormalizedTx) :=
  match body.result with
  | .rarr txs => .ok (txs.map (fun tx => normalizeTokenTx now dateParse tx "etherscan"))
  | r =>
    if body.status = .vstr "1" ∨ body.message = .vstr "OK" then
      -- `(result || []).map(...)`: a falsy result becomes `[]`; a truthy
      -- non-array has no `.map` and the runtime throws a TypeError.
      match r with
      | .rnull => .ok []
      | .rstr s =>
          if s = "" then .ok []
          else .error (.typeError "result.map is not a function")
      | .rother _ => .error (.typeError "result.map is not a function")
      | .rarr txs => .ok (txs.map (fun tx => normalizeTokenTx now dateParse tx "etherscan"))
    else
      if noTransactionsTest (msgOf body) then .ok []
      else
        let detail : String :=
          match r with
          | .rstr s => s
          | .rnull => "undefined"   -- `JSON.stringify(undefined)` interpolates as "undefined"
          | .rother j => j
          | .rarr _ => ""
          -- the `.rarr` case is unreachable: every array was already
          -- returned by the `Array.isArray` branch above
        .error (.err ("Etherscan error (V2): " ++ errMsgOf body ++ ": " ++ detail))

/-- One nested transfer event of a Covalent transaction item: the fields the
adapter reads. -/
structure CovalentTransfer where
  from_address : JVal := .vnull
  to_address : JVal := .vnull
  contract_ticker_symbol : JVal := .vnull
  contract_name : JVal := .vnull
  contract_address : JVal := .vnull
  delta : JVal := .vnull
  contract_decimals : JVal := .vnull
deriving DecidableEq, Repr

/-- One Covalent transaction item; `transfers := none` models a missing
`transfers` field. -/
structure CovalentItem where
  tx_hash : JVal := .vnull
  block_signed_at : JVal := .vnull
  transfers : Option (List CovalentTransfer) := none
deriving DecidableEq, Repr

/-- The `data` object of a Covalent body; `items := none` models a missing
`items` field. -/
structure CovalentData where
  items : Option (List CovalentItem) := none
deriving DecidableEq, Repr

/-- A Covalent response body; `data := none` models a missing `data` field. -/
structure CovalentBody where
  data : Option CovalentData := none
deriving DecidableEq, Repr

/-- `(json?.data?.items) || []`. -/
def covItems (body : CovalentBody) : List CovalentItem :=
  (body.data.bind (fun d => d.items)).getD []

/-- The object literal the adapter builds for one nested transfer before
normalizing it: exactly the keys of the source's literal, everything else
`undefined`. -/
def covRaw (it : CovalentItem) (t : CovalentTransfer) : RawTx :=
  { tx_hash := it.tx_hash
    block_signed_at := it.block_signed_at
    from_address := t.from_address
    to_address := t.to_address
    token_symbol := t.contract_ticker_symbol
    token_name := t.contract_name
    contract_address := t.contract_address
    value := t.delta
    token_decimals := t.contract_decimals }

/-- The flattening loop of `fetchCovalentTokenTransfers`: one normalized
record per nested transfer, in order. -/
def covalentFlatten (now : Int) (dateParse : String → Option Int)
    (body : CovalentBody) : List NormalizedTx :=
  (covItems body).flatMap (fun it =>
    (it.transfers.getD []).map (fun t =>
      normalizeTokenTx now dateParse (covRaw it t) "covalent"))

/-- Outcome of one `fetchJSON` call: parsed body, a non-ok HTTP status with
its body text, or a network-level failure propagating as the given error. -/
inductive TransportResult (β : Type) where
  | ok (body : β)
  | httpError (status : Nat) (text : String)
  | netFail (e : JsError)

/-- The options object passed to `fetchTokenTransfers` and on to the
adapters; `none` models an absent property (defaults applied on
destructuring, as in the source). -/
structure FetchOptions where
  page : Option Int := none
  offset : Option Int := none
  sort : Option String := none
  chainId : Option Int := none
  pageSize : Option Int := none

/-- The process environment and host functions the module reads: the two
credentials (`vnull` when the env var is unset), the clock, `Date.parse`, and
the network seen by each adapter as a function from the request URL to the
transport outcome. -/
structure Env where
  etherscanKey : JVal
  covalentKey : JVal
  now : Int
  dateParse : String → Option Int
  etherscanNet : String → TransportResult EtherscanBody
  covalentNet : String → TransportResult CovalentBody

def ETHERSCAN_API : String := "https://api.etherscan.io/v2/api"

def COVALENT_BASE : String := "https://api.covalenthq.com/v1"

/-- The Etherscan request URL. -/
def etherscanUrl (address key : String) (o : FetchOptions) : String :=
  ETHERSCAN_API ++ "?chainid=" ++ toString (o.chainId.getD 1) ++
    "&module=account&action=tokentx&address=" ++ address ++
    "&page=" ++ toString (o.page.getD 1) ++
    "&offset=" ++ toString (o.offset.getD 50) ++
    "&sort=" ++ (o.sort.getD "desc") ++ "&apikey=" ++ key

/-- The Covalent request URL. -/
def covalentUrl (chainId pageSize : Int) (address : String) : String :=
  COVALENT_BASE ++ "/" ++ toString chainId ++ "/address/" ++ address ++
    "/transfers_v2/?page-size=" ++ toString pageSize

/-- `fetchEtherscanTokenTransfers(address, opts)`. The second component
counts `fetchJSON` invocations (network calls) this call performed. -/
def fetchEtherscanTokenTransfers (env : Env) (address : String)
    (o : FetchOptions) : Except JsError (List NormalizedTx) × Nat :=
  if jsTruthy env.etherscanKey then
    match env.etherscanNet (etherscanUrl address (jvToStr env.etherscanKey) o) with
    | .ok body => (etherscanParse env.now env.dateParse body, 1)
    | .httpError st text => (.error (.err ("HTTP " ++ toString st ++ ": " ++ text)), 1)
    | .netFail e => (.error e, 1)
  else
    (.error (.err "Missing REACT_APP_ETHERSCAN_KEY"), 0)

/-- `fetchCovalentTokenTransfers(address, opts)`. The second component counts
network calls. -/
def fetchCovalentTokenTransfers (env : Env) (address : String)
    (o : FetchOptions) : Except JsError (List NormalizedTx) × Nat :=
  if jsTruthy env.covalentKey then
    match env.covalentNet (covalentUrl (o.chainId.getD 1) (o.pageSize.getD 50) address) with
    | .ok body => (.ok (covalentFlatten env.now env.dateParse body), 1)
    | .httpError st text => (.error (.err ("HTTP " ++ toString st ++ ": " ++ text)), 1)
    | .netFail e => (.error e, 1)
  else
    (.error (.err "Missing REACT_APP_COVALENT_KEY"), 0)

/-- The public orchestrator `fetchTokenTransfers(address, options)`. -/
def fetchTokenTransfers (env : Env) (address : String)
    (o : FetchOptions) : Except JsError (List NormalizedTx) × Nat :=
  if jsTruthy env.covalentKey then
    let c := fetchCovalentTokenTransfers env address o
    match c.1 with
    | .ok recs => (.ok recs, c.2)
    | .error e =>
      -- fall back to etherscan
      if jsTruthy env.etherscanKey then
        let r := fetchEtherscanTokenTransfers env address o
        (r.1, c.2 + r.2)
      else
        (.error e, c.2)
  else if jsTruthy env.etherscanKey then
    fetchEtherscanTokenTransfers env address o
  else
    (.ok [], 0)

/-- `hasAnyApiKey()`. -/
def hasAnyApiKey (env : Env) : Bool :=
  jsTruthy env.covalentKey || jsTruthy env.etherscanKey

/-- A `Date.parse` stub for concrete instances: nothing parses. -/
def dpNone : String → Option Int := fun _ => none

/-! ### Claim C1 — provider order and fallback -/

/-- A raw Etherscan transaction used in concrete instances. -/
def txC1 : RawTx := { hash := .vstr "0xAA", value := .vstr "1" }

/-- Environment with both credentials set, in which Etherscan would succeed
with one record while Covalent succeeds with an empty list. -/
def envC1 : Env :=
  { etherscanKey := .vstr "ek", covalentKey := .vstr "ck", now := 0,
    dateParse := dpNone,
    etherscanNet := fun _ => .ok { result := .rarr [txC1] },
    covalentNet := fun _ => .ok {} }

/-- Environment with both credentials set, in which Covalent fails at the
transport level and Etherscan succeeds with an empty list. -/
def envC1w : Env :=
  { etherscanKey := .vstr "ek", covalentKey := .vstr "ck", now := 0,
    dateParse := dpNone,
    etherscanNet := fun _ => .ok { result := .rarr [] },
    covalentNet := fun _ => .httpError 500 "boom" }

/-- Claim C1 fails on the code: with both credentials configured and the
Etherscan (Secondary) adapter succeeding with one record, the orchestrator
nevertheless returns the Covalent result (the empty list), so the Secondary
Provider is not attempted first. -/
theorem c1_counterexample :
    jsTruthy envC1.etherscanKey = true ∧
    (fetchEtherscanTokenTransfers envC1 "0xabc" {}).1 =
      .ok [normalizeTokenTx 0 dpNone txC1 "etherscan"] ∧
    (fetchTokenTransfers envC1 "0xabc" {}).1 = .ok [] ∧
    ((.ok [] : Except JsError (List NormalizedTx)) ≠
      .ok [normalizeTokenTx 0 dpNone txC1 "etherscan"]) := by
  refine ⟨rfl, rfl, rfl, ?_⟩
  intro h
  simp at h

/-- Claim C1 (amended): whenever the Covalent credential is configured,
`fetchTokenTransfers` attempts the Covalent adapter first — a Covalent
success is the final outcome — and when that attempt fails and the Etherscan
credential is also configured, the orchestrator's result equals what calling
the Etherscan adapter directly would produce (success or failure). -/
theorem c1_amended_order_and_fallback (env : Env) (a : String) (o : FetchOptions)
    (hc : jsTruthy env.covalentKey = true) :
    (∀ l, (fetchCovalentTokenTransfers env a o).1 = .ok l →
        (fetchTokenTransfers env a o).1 = .ok l) ∧
    (∀ e, (fetchCovalentTokenTransfers env a o).1 = .error e →
        jsTruthy env.etherscanKey = true →
        (fetchTokenTransfers env a o).1 = (fetchEtherscanTokenTransfers env a o).1) := by
  constructor
  · intro l hok
    simp [fetchTokenTransfers, hc, hok]
  · intro e hfail he
    simp [fetchTokenTransfers, hc, hfail, he]

/-- Concrete instance of the amended C1: Covalent succeeding makes its list
the outcome, and Covalent failing hands the final outcome to Etherscan. -/
theorem c1_amended_witness :
    (fetchTokenTransfers envC1 "0xabc" {}).1 = .ok [] ∧
    (fetchTokenTransfers envC1w "0xabc" {}).1 =
      (fetchEtherscanTokenTransfers envC1w "0xabc" {}).1 :=
  ⟨(c1_amended_order_and_fallback envC1 "0xabc" {} rfl).1 [] rfl,
   (c1_amended_order_and_fallback envC1w "0xabc" {} rfl).2
     (.err "HTTP 500: boom") rfl rfl⟩

/-! ### Claim C2 — error passthrough when only Etherscan is configured -/

/-- Claim C2: with the Etherscan credential configured, the Covalent
credential absent, and the Etherscan attempt failing with `e`, the
orchestrator fails with exactly that error, unwrapped and unaltered. -/
theorem c2_error_passthrough (env : Env) (a : String) (o : FetchOptions)
    (hc : jsTruthy env.covalentKey = false)
    (he : jsTruthy env.etherscanKey = true) (e : JsError)
    (hfail : (fetchEtherscanTokenTransfers env a o).1 = .error e) :
    (fetchTokenTransfers env a o).1 = .error e := by
  simp [fetchTokenTransfers, hc, he, hfail]

/-- Environment with only the Etherscan credential, whose transport fails. -/
def envC2 : Env :=
  { etherscanKey := .vstr "ek", covalentKey := .vnull, now := 0,
    dateParse := dpNone,
    etherscanNet := fun _ => .httpError 500 "boom",
    covalentNet := fun _ => .netFail (.err "unused") }

/-- Concrete instance of C2: the HTTP failure surfaces verbatim. -/
theorem c2_witness :
    (fetchTokenTransfers envC2 "0xabc" {}).1 = .error (.err "HTTP 500: boom") :=
  c2_error_passthrough envC2 "0xabc" {} rfl rfl _ rfl

/-! ### Claim C3 — no credentials: empty success, zero network calls -/

/-- Claim C3: with neither credential configured, `fetchTokenTransfers`
returns the empty list as a success and performs zero network calls. -/
theorem c3_no_keys_empty_no_calls (env : Env) (a : String) (o : FetchOptions)
    (hc : jsTruthy env.covalentKey = false)
    (he : jsTruthy env.etherscanKey = false) :
    fetchTokenTransfers env a o = (.ok [], 0) := by
  simp [fetchTokenTransfers, hc, he]

/-- Environment with no credentials at all. -/
def envC3 : Env :=
  { etherscanKey := .vnull, covalentKey := .vnull, now := 0,
    dateParse := dpNone,
    etherscanNet := fun _ => .netFail (.err "unused"),
    covalentNet := fun _ => .netFail (.err "unused") }

/-- Concrete instance of C3. -/
theorem c3_witness : fetchTokenTransfers envC3 "0xabc" {} = (.ok [], 0) :=
  c3_no_keys_empty_no_calls envC3 "0xabc" {} rfl rfl

/-! ### Claim C4 — the three Etherscan response shapes -/

/-- Claim C4: the Etherscan adapter's parse tries three shapes in order.
A `result` array is mapped to normalized records; under the legacy status
flag (`status == "1"` or `message == "OK"`) an absent result is the empty
list; otherwise a message matching the case-insensitive no-transactions
pattern yields an empty success, and any other message raises a provider
error carrying the message and a stringified form of `result` (the string
itself when `result` is a string, `"undefined"` when it is absent). In
particular `\x7b message: "No transactions found" \x7d` parses to `[]`. -/
theorem c4_etherscan_parse_shapes (now : Int) (dp : String → Option Int)
    (body : EtherscanBody) :
    (∀ txs, body.result = .rarr txs →
        etherscanParse now dp body =
          .ok (txs.map (fun tx => normalizeTokenTx now dp tx "etherscan"))) ∧
    ((body.status = .vstr "1" ∨ body.message = .vstr "OK") → body.result = .rnull →
        etherscanParse now dp body = .ok []) ∧
    ((∀ txs, body.result ≠ .rarr txs) →
        ¬(body.status = .vstr "1" ∨ body.message = .vstr "OK") →
        noTransactionsTest (msgOf body) = true →
        etherscanParse now dp body = .ok []) ∧
    (∀ s, body.result = .rstr s →
        ¬(body.status = .vstr "1" ∨ body.message = .vstr "OK") →
        noTransactionsTest (msgOf body) = false →
        etherscanParse now dp body =
          .error (.err ("Etherscan error (V2): " ++ errMsgOf body ++ ": " ++ s))) ∧
    (body.result = .rnull →
        ¬(body.status = .vstr "1" ∨ body.message = .vstr "OK") →
        noTransactionsTest (msgOf body) = false →
        etherscanParse now dp body =
          .error (.err ("Etherscan error (V2): " ++ errMsgOf body ++ ": " ++ "undefined"))) ∧
    (etherscanParse now dp { message := .vstr "No transactions found" } = .ok []) := by
  obtain ⟨st, msg, res⟩ := body
  refine ⟨?_, ?_, ?_, ?_, ?_, rfl⟩
  · rintro txs rfl
    rfl
  · rintro hok rfl
    show (if st = .vstr "1" ∨ msg = .vstr "OK" then _ else _) = _
    rw [if_pos hok]
  · intro hna hno htest
    cases res with
    | rarr txs => exact absurd rfl (hna txs)
    | rnull =>
        show (if st = .vstr "1" ∨ msg = .vstr "OK" then _ else _) = _
        rw [if_neg hno, if_pos htest]
    | rstr s =>
        show (if st = .vstr "1" ∨ msg = .vstr "OK" then _ else _) = _
        rw [if_neg hno, if_pos htest]
    | rother j =>
        show (if st = .vstr "1" ∨ msg = .vstr "OK" then _ else _) = _
        rw [if_neg hno, if_pos htest]
  · rintro s rfl hno htest
    show (if st = .vstr "1" ∨ msg = .vstr "OK" then _ else _) = _
    rw [if_neg hno, if_neg (by simp [htest])]
  · rintro rfl hno htest
    show (if st = .vstr "1" ∨ msg = .vstr "OK" then _ else _) = _
    rw [if_neg hno, if_neg (by simp [htest])]

/-- A raw Etherscan transaction for the C4 array-shape instance. -/
def txC4 : RawTx :=
  { hash := .vstr "0xAA", timeStamp := .vstr "1700000000",
    fromA := .vstr "0x1", toA := .vstr "0x2",
    tokenSymbol := .vstr "USDT", value := .vstr "1000000",
    tokenDecimal := .vstr "6" }

/-- Concrete instances of C4: one per shape — an array result, the legacy
status flag with no result, a rate-limit style error message, and an absent
result with an unrecognized message. -/
theorem c4_witness :
    etherscanParse 0 dpNone { result := .rarr [txC4] } =
      .ok [normalizeTokenTx 0 dpNone txC4 "etherscan"] ∧
    etherscanParse 0 dpNone { status := .vstr "1" } = .ok [] ∧
    etherscanParse 0 dpNone
        { message := .vstr "NOTOK", result := .rstr "Max rate limit reached" } =
      .error (.err "Etherscan error (V2): NOTOK: Max rate limit reached") ∧
    etherscanParse 0 dpNone { message := .vstr "weird" } =
      .error (.err "Etherscan error (V2): weird: undefined") := by
  refine ⟨(c4_etherscan_parse_shapes 0 dpNone _).1 [txC4] rfl,
    (c4_etherscan_parse_shapes 0 dpNone _).2.1 (.inl rfl) rfl,
    ?_, ?_⟩
  · have h := (c4_etherscan_parse_shapes 0 dpNone
      { message := .vstr "NOTOK", result := .rstr "Max rate limit reached" }).2.2.2.1
      "Max rate limit reached" rfl (by decide) (by decide)
    simpa [errMsgOf, msgValOf, msgOf, jsOr, jsTruthy, jvToStr] using h
  · have h := (c4_etherscan_parse_shapes 0 dpNone
      { message := .vstr "weird" }).2.2.2.2.1 rfl (by decide) (by decide)
    simpa [errMsgOf, msgValOf, msgOf, jsOr, jsTruthy, jvToStr] using h

/-! ### Claim C5 — Covalent flattening of nested transfer events -/

/-- Helper: the length of a flatMap is the sum of the mapped lengths. -/
theorem length_flatMap_eq {α β : Type} (l : List α) (f : α → List β) :
    (l.flatMap f).length = (l.map (fun a => (f a).length)).sum := by
  induction l with
  | nil => rfl
  | cons a l ih => simp [List.flatMap_cons, ih]

/-- Claim C5: the Covalent adapter yields exactly one normalized record per
nested transfer event across all items; each record inherits the parent
item's transaction hash and block time while taking sender, recipient and
raw value from the nested event; one item with two nested events yields
exactly those two records in order. -/
theorem c5_covalent_flatten (now : Int) (dp : String → Option Int) :
    (∀ body, (covalentFlatten now dp body).length =
        ((covItems body).map (fun it => (it.transfers.getD []).length)).sum) ∧
    (∀ it t,
        (normalizeTokenTx now dp (covRaw it t) "covalent").hash = it.tx_hash ∧
        (normalizeTokenTx now dp (covRaw it t) "covalent").time =
          (if jsTruthy it.block_signed_at then dp (jvToStr it.block_signed_at)
           else some now) ∧
        (normalizeTokenTx now dp (covRaw it t) "covalent").fromA = t.from_address ∧
        (normalizeTokenTx now dp (covRaw it t) "covalent").toA = t.to_address ∧
        (normalizeTokenTx now dp (covRaw it t) "covalent").value = t.delta) ∧
    (∀ it t1 t2, it.transfers = some [t1, t2] →
        covalentFlatten now dp { data := some { items := some [it] } } =
          [normalizeTokenTx now dp (covRaw it t1) "covalent",
           normalizeTokenTx now dp (covRaw it t2) "covalent"]) := by
  refine ⟨?_, ?_, ?_⟩
  · intro body
    rw [covalentFlatten, length_flatMap_eq]
    simp only [List.length_map]
  · intro it t
    exact ⟨rfl, rfl, rfl, rfl, rfl⟩
  · intro it t1 t2 h
    simp [covalentFlatten, covItems, h]

/-- A Covalent item holding two nested transfer events that differ in
sender, recipient and delta, used for the C5 instance. -/
def tC5a : CovalentTransfer :=
  { from_address := .vstr "0x1", to_address := .vstr "0x2", delta := .vstr "100" }

/-- Second nested transfer event for the C5 instance. -/
def tC5b : CovalentTransfer :=
  { from_address := .vstr "0x3", to_address := .vstr "0x4", delta := .vstr "200" }

/-- The parent transaction item for the C5 instance. -/
def itC5 : CovalentItem :=
  { tx_hash := .vstr "0xAA", block_signed_at := .vstr "2023-01-01T00:00:00Z",
    transfers := some [tC5a, tC5b] }

/-- Concrete instance of C5: one item with two nested events flattens to
exactly two records that share hash and time but differ in sender,
recipient and raw value. -/
theorem c5_witness :
    covalentFlatten 0 dpNone { data := some { items := some [itC5] } } =
      [normalizeTokenTx 0 dpNone (covRaw itC5 tC5a) "covalent",
       normalizeTokenTx 0 dpNone (covRaw itC5 tC5b) "covalent"] ∧
    (normalizeTokenTx 0 dpNone (covRaw itC5 tC5a) "covalent").hash =
      (normalizeTokenTx 0 dpNone (covRaw itC5 tC5b) "covalent").hash ∧
    (normalizeTokenTx 0 dpNone (covRaw itC5 tC5a) "covalent").time =
      (normalizeTokenTx 0 dpNone (covRaw itC5 tC5b) "covalent").time ∧
    (normalizeTokenTx 0 dpNone (covRaw itC5 tC5a) "covalent").fromA ≠
      (normalizeTokenTx 0 dpNone (covRaw itC5 tC5b) "covalent").fromA ∧
    (normalizeTokenTx 0 dpNone (covRaw itC5 tC5a) "covalent").toA ≠
      (normalizeTokenTx 0 dpNone (covRaw itC5 tC5b) "covalent").toA ∧
    (normalizeTokenTx 0 dpNone (covRaw itC5 tC5a) "covalent").value ≠
      (normalizeTokenTx 0 dpNone (covRaw itC5 tC5b) "covalent").value :=
  ⟨(c5_covalent_flatten 0 dpNone).2.2 itC5 tC5a tC5b rfl,
   by decide, by decide, by decide, by decide, by decide⟩

/-! ### Claim C6 — raw value passes through unchanged -/

/-- Claim C6: the normalized record's value field is the provider's value,
unchanged and never coerced to a number; in particular a 30-digit value
string survives the Etherscan adapter's parse exactly. -/
theorem c6_rawValue_passthrough :
    (∀ (now : Int) (dp : String → Option Int) (tx : RawTx) (src : String),
        (normalizeTokenTx now dp tx src).value = tx.value) ∧
    (Except.map (fun l => l.map (fun r => r.value))
        (etherscanParse 0 dpNone
          { result := .rarr [{ value := .vstr "123456789012345678901234567890" }] }) =
      .ok [.vstr "123456789012345678901234567890"]) :=
  ⟨fun _ _ _ _ => rfl, rfl⟩

/-! ### Claim C7 — token decimals defaulting -/

/-- Claim C7 fails on the code: a provider-supplied decimal count of zero
(Covalent's numeric `contract_decimals = 0`) is falsy in `tokenDecimal ||
token_decimals || 18`, so the normalized decimals become 18, not the
supplied 0. -/
theorem c7_counterexample :
    (normalizeTokenTx 0 dpNone { token_decimals := .vnum 0 } "covalent").decimals =
      some 18 ∧
    (some (18 : Int) ≠ some (0 : Int)) :=
  ⟨rfl, by decide⟩

/-- Claim C7 (amended): the normalized decimals are the `Number` coercion of
the first truthy decimal field, and 18 otherwise. Both decimal fields
omitted give 18; a supplied numeric count `n` gives `n` except that the
falsy `n = 0` also gives 18; a supplied non-empty decimal string parsing to
`n` gives `n` (so the string "0" does give 0). -/
theorem c7_amended_decimals (now : Int) (dp : String → Option Int)
    (tx : RawTx) (src : String) :
    (tx.tokenDecimal = .vnull → tx.token_decimals = .vnull →
        (normalizeTokenTx now dp tx src).decimals = some 18) ∧
    (∀ n : Int, tx.tokenDecimal = .vnull → tx.token_decimals = .vnum n →
        (normalizeTokenTx now dp tx src).decimals =
          (if n = 0 then some 18 else some n)) ∧
    (∀ s n, tx.tokenDecimal = .vstr s → s ≠ "" → jsStrToInt? s = some n →
        (normalizeTokenTx now dp tx src).decimals = some n) ∧
    (∀ n : Int, tx.tokenDecimal = .vnum n → n ≠ 0 →
        (normalizeTokenTx now dp tx src).decimals = some n) := by
  refine ⟨?_, ?_, ?_, ?_⟩
  · intro h1 h2
    simp [normalizeTokenTx, h1, h2, jsOr, jsTruthy, jsNumber]
  · intro n h1 h2
    by_cases hn : n = 0
    · simp [normalizeTokenTx, h1, h2, hn, jsOr, jsTruthy, jsNumber]
    · simp [normalizeTokenTx, h1, h2, hn, jsOr, jsTruthy, jsNumber]
  · intro s n h1 hs hp
    simp [normalizeTokenTx, h1, hs, hp, jsOr, jsTruthy, jsNumber]
  · intro n h1 hn
    simp [normalizeTokenTx, h1, hn, jsOr, jsTruthy, jsNumber]

/-- Concrete instances of the amended C7: both fields omitted, a numeric
zero, a decimal string, and a non-zero numeric count. -/
theorem c7_amended_witness :
    (normalizeTokenTx 0 dpNone {} "x").decimals = some 18 ∧
    (normalizeTokenTx 0 dpNone { token_decimals := .vnum 0 } "x").decimals =
      (if (0 : Int) = 0 then some 18 else some 0) ∧
    (normalizeTokenTx 0 dpNone { tokenDecimal := .vstr "6" } "x").decimals = some 6 ∧
    (normalizeTokenTx 0 dpNone { tokenDecimal := .vnum 7 } "x").decimals = some 7 :=
  ⟨(c7_amended_decimals 0 dpNone {} "x").1 rfl rfl,
   (c7_amended_decimals 0 dpNone { token_decimals := .vnum 0 } "x").2.1 0 rfl rfl,
   (c7_amended_decimals 0 dpNone { tokenDecimal := .vstr "6" } "x").2.2.1
     "6" 6 rfl (by decide) rfl,
   (c7_amended_decimals 0 dpNone { tokenDecimal := .vnum 7 } "x").2.2.2
     7 rfl (by decide)⟩

/-! ### Claim C8 — timestamp derivation -/

/-- Claim C8 fails on the code: a record whose `block_signed_at` is present
but unparseable gets `Date.parse`'s NaN (an invalid time, `none` here), not
the current time 999 the claim promises. -/
theorem c8_counterexample :
    (normalizeTokenTx 999 dpNone { block_signed_at := .vstr "not-a-date" }
      "covalent").time = none ∧
    ((none : Option Int) ≠ some 999) :=
  ⟨rfl, by decide⟩

/-- Claim C8 (amended): a truthy `timeStamp` parsing as an integer `n` gives
the time `n * 1000` (Unix seconds to milliseconds); a record with both time
fields absent gets the current time; a truthy `block_signed_at` gets
whatever `Date.parse` yields — the parsed time when parseable, the invalid
(NaN) time when not — never the current time. -/
theorem c8_amended_timestamp (now : Int) (dp : String → Option Int)
    (tx : RawTx) (src : String) :
    (∀ s n, tx.timeStamp = .vstr s → s ≠ "" → jsStrToInt? s = some n →
        (normalizeTokenTx now dp tx src).time = some (n * 1000)) ∧
    (tx.timeStamp = .vnull → tx.block_signed_at = .vnull →
        (normalizeTokenTx now dp tx src).time = some now) ∧
    (∀ s, tx.timeStamp = .vnull → tx.block_signed_at = .vstr s → s ≠ "" →
        (normalizeTokenTx now dp tx src).time = dp s) := by
  refine ⟨?_, ?_, ?_⟩
  · intro s n h1 hs hp
    simp [normalizeTokenTx, h1, hs, hp, jsTruthy, jsNumber]
  · intro h1 h2
    simp [normalizeTokenTx, h1, h2, jsTruthy]
  · intro s h1 h2 hs
    simp [normalizeTokenTx, h1, h2, hs, jsTruthy, jvToStr]

/-- Concrete instances of the amended C8: a Unix-seconds string, no time
fields at all, and an unparseable `block_signed_at`. -/
theorem c8_amended_witness :
    (normalizeTokenTx 42 dpNone { timeStamp := .vstr "1700000000" } "x").time =
      some (1700000000 * 1000) ∧
    (normalizeTokenTx 42 dpNone {} "x").time = some 42 ∧
    (normalizeTokenTx 42 dpNone { block_signed_at := .vstr "garbage" } "x").time =
      dpNone "garbage" :=
  ⟨(c8_amended_timestamp 42 dpNone { timeStamp := .vstr "1700000000" } "x").1
     "1700000000" 1700000000 rfl (by decide) rfl,
   (c8_amended_timestamp 42 dpNone {} "x").2.1 rfl rfl,
   (c8_amended_timestamp 42 dpNone { block_signed_at := .vstr "garbage" } "x").2.2
     "garbage" rfl rfl (by decide)⟩

/-! ### Claim C9 — normalization determinism -/

/-- Claim C9 fails on the code: a raw item with no time field reads the
ambient clock (`Date.now()`), so normalizing the same item at two clock
instants produces structurally different records. -/
theorem c9_counterexample :
    normalizeTokenTx 0 dpNone {} "etherscan" ≠
      normalizeTokenTx 1 dpNone {} "etherscan" := by
  decide

/-- Claim C9 (amended): for every raw item carrying a truthy time field
(`timeStamp` or `block_signed_at`), normalization is independent of the
ambient clock, hence two applications — even at different instants — give
structurally identical records. -/
theorem c9_amended_determinism (tx : RawTx) (src : String)
    (dp : String → Option Int) (now1 now2 : Int)
    (h : jsTruthy tx.timeStamp = true ∨ jsTruthy tx.block_signed_at = true) :
    normalizeTokenTx now1 dp tx src = normalizeTokenTx now2 dp tx src := by
  rcases h with h | h
  · simp [normalizeTokenTx, h]
  · cases hts : jsTruthy tx.timeStamp <;> simp [normalizeTokenTx, hts, h]

/-- Concrete instance of the amended C9 at two distinct clock readings. -/
theorem c9_amended_witness :
    normalizeTokenTx 0 dpNone { timeStamp := .vstr "1700000000" } "x" =
      normalizeTokenTx 5 dpNone { timeStamp := .vstr "1700000000" } "x" :=
  c9_amended_determinism { timeStamp := .vstr "1700000000" } "x" dpNone 0 5
    (Or.inl rfl)

/-! ### Claim C10 — the Covalent adapter never fails at the data level -/

/-- Claim C10: after a transport-level success the Covalent adapter always
returns a list — it never raises a data-level provider error; a missing
`data` or `data.items` field means the empty list, and an item without a
`transfers` field contributes zero records. -/
theorem c10_covalent_total (env : Env) (a : String) (o : FetchOptions)
    (body : CovalentBody)
    (hk : jsTruthy env.covalentKey = true)
    (hnet : env.covalentNet
        (covalentUrl (o.chainId.getD 1) (o.pageSize.getD 50) a) = .ok body) :
    (fetchCovalentTokenTransfers env a o).1 =
      .ok (covalentFlatten env.now env.dateParse body) ∧
    (body.data = none → covalentFlatten env.now env.dateParse body = []) ∧
    (∀ d, body.data = some d → d.items = none →
        covalentFlatten env.now env.dateParse body = []) ∧
    (∀ it, it.transfers = none →
        covalentFlatten env.now env.dateParse
          { data := some { items := some [it] } } = []) := by
  refine ⟨?_, ?_, ?_, ?_⟩
  · simp [fetchCovalentTokenTransfers, hk, hnet]
  · intro h
    simp [covalentFlatten, covItems, h]
  · intro d hd hi
    simp [covalentFlatten, covItems, hd, hi]
  · intro it h
    simp [covalentFlatten, covItems, h]

/-- Environment whose Covalent credential is set and whose Covalent network
answers with the body `\x7b\x7d` (no `data` field). -/
def envC10 : Env :=
  { etherscanKey := .vnull, covalentKey := .vstr "ck", now := 0,
    dateParse := dpNone,
    etherscanNet := fun _ => .netFail (.err "unused"),
    covalentNet := fun _ => .ok {} }

/-- Concrete instance of C10: a body without `data` is an empty success. -/
theorem c10_witness :
    (fetchCovalentTokenTransfers envC10 "0xabc" {}).1 =
      .ok (covalentFlatten envC10.now envC10.dateParse {}) ∧
    covalentFlatten envC10.now envC10.dateParse ({} : CovalentBody) = [] :=
  ⟨(c10_covalent_total envC10 "0xabc" {} {} rfl rfl).1,
   (c10_covalent_total envC10 "0xabc" {} {} rfl rfl).2.1 rfl⟩

end Onchain
